import Mathlib

/-!
Shallow embedding of the alerting core of `personal-website-alerting`
(src/alerting): the data model (`types.ts`), the anomaly detectors
(`thresholds.ts`), the alert state manager (`state.ts`) and the scheduler
pass (`scheduler.ts`).  JavaScript numbers are modelled as exact rationals
(`ℚ`), `Date` timestamps as integer milliseconds (`ℤ`), and the Cloudflare
KV namespace as a pointwise map from anomaly type to its stored state
(the `alert_state:${type}` key schema is injective in the type, and writes
are read back by later gets in the same invocation).
-/

namespace Alerting

/-- `types.ts`: closed set of anomaly types. -/
inductive AnomalyType where
  | high_error_rate
  | high_latency
  | traffic_spike
  | llm_error_rate
  | llm_latency
  | llm_high_tokens
deriving DecidableEq, Repr

/-- `types.ts`: severity enum `"high" | "default"`. -/
inductive Severity where
  | high
  | default
deriving DecidableEq, Repr

/-- `types.ts`: `CloudflareMetrics`. -/
structure CloudflareMetrics where
  requestCount : ℚ
  errorRate : ℚ
  p95Latency : ℚ
  p99Latency : ℚ
  errors5xx : ℚ
  errors4xx : ℚ
  timestamp : ℤ
deriving DecidableEq, Repr

/-- `types.ts`: `LangSmithMetrics`. -/
structure LangSmithMetrics where
  totalRuns : ℚ
  errorCount : ℚ
  errorRate : ℚ
  avgLatency : ℚ
  p95Latency : ℚ
  totalTokens : ℚ
  avgTokensPerRun : ℚ
  timestamp : ℤ
deriving DecidableEq, Repr

/-- `types.ts`: `Anomaly`. -/
structure Anomaly where
  type : AnomalyType
  severity : Severity
  message : String
  value : ℚ
  threshold : ℚ
  timestamp : ℤ
deriving DecidableEq, Repr

/-- `types.ts`: `AlertState`. -/
structure AlertState where
  lastAlertTime : ℤ
  alertCount : ℕ
deriving DecidableEq, Repr

/-- `types.ts`: `Thresholds`. -/
structure Thresholds where
  errorRatePercent : ℚ
  p95LatencyMs : ℚ
  p99LatencyMs : ℚ
  trafficSpikeMultiplier : ℚ
  llmErrorRatePercent : ℚ
  llmP95LatencyMs : ℚ
  llmTokenSpikeMultiplier : ℚ
deriving DecidableEq, Repr

/-- `thresholds.ts`: `DEFAULT_THRESHOLDS`. -/
def DEFAULT_THRESHOLDS : Thresholds :=
  { errorRatePercent := 5
    p95LatencyMs := 2000
    p99LatencyMs := 3000
    trafficSpikeMultiplier := 2
    llmErrorRatePercent := 10
    llmP95LatencyMs := 20000
    llmTokenSpikeMultiplier := 3 }

/-! ### Number rendering

`Number.prototype.toFixed(f)` per the ECMAScript spec: render the integer
`n` minimising `|n / 10^f - x|`, ties to the larger `n`, on the absolute
value (the sign is split off first).  Over exact rationals this is
round-half-up on `|x| * 10^f`. -/

/-- Left-pad a digit string with zeros to length `f`. -/
def padZeros (s : String) (f : ℕ) : String :=
  String.mk (List.replicate (f - s.length) '0') ++ s

/-- `toFixed` on a nonnegative rational. -/
def toFixedNN (x : ℚ) (f : ℕ) : String :=
  let n : ℕ := (round (x * (10 : ℚ) ^ f)).toNat
  if f = 0 then toString (n / 10 ^ f)
  else toString (n / 10 ^ f) ++ "." ++ padZeros (toString (n % 10 ^ f)) f

/-- JavaScript `x.toFixed(f)` on an exact rational. -/
def toFixed (x : ℚ) (f : ℕ) : String :=
  if x < 0 then "-" ++ toFixedNN (-x) f else toFixedNN x f

/-- Smallest `k ≤ 100` with `d ∣ 10^k` (any float-representable rational
has such a `k`); `100` as a fallback, never hit on real inputs. -/
def decimalLen (d : ℕ) : ℕ :=
  (((List.range 101).find? fun k => 10 ^ k % d == 0).getD 100)

/-- Default JavaScript number-to-string conversion (template-literal
interpolation) on an exact rational: the exact decimal expansion with no
trailing zeros. -/
def jsNumToString (x : ℚ) : String :=
  if x < 0 then "-" ++ toFixedNN (-x) (decimalLen (-x).den
    ) else toFixedNN x (decimalLen x.den)

/-! ### `thresholds.ts` detectors

Each `anomalies.push({...})` literal of `thresholds.ts` is factored out as
a named builder; the detectors below concatenate them under the exact
source conditions.  The `trafficRatio` and `tokenRatio` locals are inlined
at their use sites. -/

/-- The `high_error_rate` object pushed by `checkCloudflareAnomalies`. -/
@[simp] def cfErrorAnomaly (current : CloudflareMetrics)
    (thresholds : Thresholds) : Anomaly :=
  { type := AnomalyType.high_error_rate
    severity := Severity.high
    message := "Error rate is " ++ toFixed current.errorRate 2 ++
      "% (threshold: " ++ jsNumToString thresholds.errorRatePercent ++ "%)"
    value := current.errorRate
    threshold := thresholds.errorRatePercent
    timestamp := current.timestamp }

/-- The P95 `high_latency` object pushed by `checkCloudflareAnomalies`. -/
@[simp] def cfP95Anomaly (current : CloudflareMetrics)
    (thresholds : Thresholds) : Anomaly :=
  { type := AnomalyType.high_latency
    severity := Severity.high
    message := "P95 latency is " ++ toFixed current.p95Latency 0 ++
      "ms (threshold: " ++ jsNumToString thresholds.p95LatencyMs ++ "ms)"
    value := current.p95Latency
    threshold := thresholds.p95LatencyMs
    timestamp := current.timestamp }

/-- The P99 `high_latency` object pushed by `checkCloudflareAnomalies`. -/
@[simp] def cfP99Anomaly (current : CloudflareMetrics)
    (thresholds : Thresholds) : Anomaly :=
  { type := AnomalyType.high_latency
    severity := Severity.high
    message := "P99 latency is " ++ toFixed current.p99Latency 0 ++
      "ms (threshold: " ++ jsNumToString thresholds.p99LatencyMs ++ "ms)"
    value := current.p99Latency
    threshold := thresholds.p99LatencyMs
    timestamp := current.timestamp }

/-- The `traffic_spike` object pushed by `checkCloudflareAnomalies`. -/
@[simp] def cfTrafficAnomaly (current b : CloudflareMetrics)
    (thresholds : Thresholds) : Anomaly :=
  { type := AnomalyType.traffic_spike
    severity := Severity.default
    message := "Traffic is " ++
      toFixed (current.requestCount / b.requestCount) 1 ++
      "x baseline (" ++ jsNumToString current.requestCount ++
      " vs " ++ jsNumToString b.requestCount ++ " requests)"
    value := current.requestCount / b.requestCount
    threshold := thresholds.trafficSpikeMultiplier
    timestamp := current.timestamp }

/-- `thresholds.ts`: `checkCloudflareAnomalies(current, baseline,
thresholds)`. -/
def checkCloudflareAnomalies (current : CloudflareMetrics)
    (baseline : Option CloudflareMetrics) (thresholds : Thresholds) :
    List Anomaly :=
  (if current.errorRate > thresholds.errorRatePercent then
    [cfErrorAnomaly current thresholds]
  else []) ++
  (if current.p95Latency > thresholds.p95LatencyMs then
    [cfP95Anomaly current thresholds]
  else []) ++
  (if current.p99Latency > thresholds.p99LatencyMs then
    [cfP99Anomaly current thresholds]
  else []) ++
  (match baseline with
   | none => []
   | some b =>
     if b.requestCount > 0 then
       if current.requestCount / b.requestCount >
           thresholds.trafficSpikeMultiplier then
         [cfTrafficAnomaly current b thresholds]
       else []
     else [])

/-- The `llm_error_rate` object pushed by `checkLangSmithAnomalies`. -/
@[simp] def lsErrorAnomaly (current : LangSmithMetrics)
    (thresholds : Thresholds) : Anomaly :=
  { type := AnomalyType.llm_error_rate
    severity := Severity.high
    message := "LLM error rate is " ++ toFixed current.errorRate 2 ++
      "% (" ++ jsNumToString current.errorCount ++ "/" ++
      jsNumToString current.totalRuns ++ " runs failed)"
    value := current.errorRate
    threshold := thresholds.llmErrorRatePercent
    timestamp := current.timestamp }

/-- The `llm_latency` object pushed by `checkLangSmithAnomalies`. -/
@[simp] def lsLatencyAnomaly (current : LangSmithMetrics)
    (thresholds : Thresholds) : Anomaly :=
  { type := AnomalyType.llm_latency
    severity := Severity.high
    message := "LLM P95 latency is " ++
      toFixed (current.p95Latency / 1000) 2 ++ "s (threshold: " ++
      jsNumToString (thresholds.llmP95LatencyMs / 1000) ++ "s)"
    value := current.p95Latency
    threshold := thresholds.llmP95LatencyMs
    timestamp := current.timestamp }

/-- The `llm_high_tokens` object pushed by `checkLangSmithAnomalies`. -/
@[simp] def lsTokensAnomaly (current b : LangSmithMetrics)
    (thresholds : Thresholds) : Anomaly :=
  { type := AnomalyType.llm_high_tokens
    severity := Severity.default
    message := "Token usage is " ++
      toFixed (current.avgTokensPerRun / b.avgTokensPerRun) 1 ++
      "x baseline (" ++ toFixed current.avgTokensPerRun 0 ++
      " vs " ++ toFixed b.avgTokensPerRun 0 ++ " tokens/run)"
    value := current.avgTokensPerRun / b.avgTokensPerRun
    threshold := thresholds.llmTokenSpikeMultiplier
    timestamp := current.timestamp }

/-- `thresholds.ts`: `checkLangSmithAnomalies(current, baseline,
thresholds)`. -/
def checkLangSmithAnomalies (current : LangSmithMetrics)
    (baseline : Option LangSmithMetrics) (thresholds : Thresholds) :
    List Anomaly :=
  (if current.errorRate > thresholds.llmErrorRatePercent then
    [lsErrorAnomaly current thresholds]
  else []) ++
  (if current.p95Latency > thresholds.llmP95LatencyMs then
    [lsLatencyAnomaly current thresholds]
  else []) ++
  (match baseline with
   | none => []
   | some b =>
     if b.avgTokensPerRun > 0 then
       if current.avgTokensPerRun / b.avgTokensPerRun >
           thresholds.llmTokenSpikeMultiplier then
         [lsTokensAnomaly current b thresholds]
       else []
     else [])

/-! ### `state.ts`: `AlertStateManager`

The KV namespace is modelled pointwise: `Store t` is the parsed
`AlertState` stored under key `alert_state:${t}`, or `none`.  The
`expirationTtl` on `kv.put` is a multi-day expiry and never elapses within
one invocation, so it does not appear in the single-pass model.
`Date.now()` is the injected clock value `now`. -/

/-- The alert-state KV namespace, keyed by anomaly type. -/
def Store : Type := AnomalyType → Option AlertState

/-- `kv.put`: overwrite the entry for one type. -/
def Store.put (store : Store) (t : AnomalyType) (st : AlertState) : Store :=
  fun t' => if t' = t then some st else store t'

/-- `state.ts`: `filterNewAlerts(anomalies)` with cooldown
`cooldownMinutes` minutes; keeps an anomaly unless its type has stored
state with `now - lastAlertTime < cooldownMinutes * 60 * 1000`. -/
def filterNewAlerts (cooldownMinutes : ℤ) (store : Store) (now : ℤ) :
    List Anomaly → List Anomaly
  | [] => []
  | a :: rest =>
    match store a.type with
    | some st =>
      if now - st.lastAlertTime < cooldownMinutes * 60 * 1000 then
        filterNewAlerts cooldownMinutes store now rest
      else a :: filterNewAlerts cooldownMinutes store now rest
    | none => a :: filterNewAlerts cooldownMinutes store now rest

/-- `state.ts`: `recordAlerts(anomalies)`: for each anomaly in order, read
the state for its type, bump `alertCount` (starting at 1), set
`lastAlertTime = now`, and write it back; later reads in the same batch
see earlier writes. -/
def recordAlerts (store : Store) (now : ℤ) : List Anomaly → Store
  | [] => store
  | a :: rest =>
    let st : AlertState :=
      match store a.type with
      | some s => { lastAlertTime := now, alertCount := s.alertCount + 1 }
      | none => { lastAlertTime := now, alertCount := 1 }
    recordAlerts (store.put a.type st) now rest

/-! ### `scheduler.ts`: `runAlerting`

The fetch results are modelled as `Except Unit (Option _)`: `.error` is a
rejected promise (collapsed to `null` by the `.catch(() => null)`
handlers), `.ok none` a fetch that resolved to `null`.  The notifier's
`sendAlert` either succeeds (`sendOk = true`) or throws; a throw lands in
the enclosing `try/catch`, which skips everything after the send.  The
observable outcome of one pass is the final store plus the batch that was
both notified and recorded (`none` when no notification was sent). -/

/-- `.catch(() => null)` around a fetch returning `T | null`. -/
def catchNull {α : Type} : Except Unit (Option α) → Option α
  | Except.ok v => v
  | Except.error _ => none

/-- `scheduler.ts` lines 29–65: the pass's combined anomaly list — each
source contributes its detector output when its current-metrics fetch
produced a snapshot, and nothing otherwise. -/
def detectedAnomalies (cfFetch : Except Unit (Option CloudflareMetrics))
    (lsFetch : Except Unit (Option LangSmithMetrics))
    (cfBaseFetch : Except Unit (Option CloudflareMetrics))
    (lsBaseFetch : Except Unit (Option LangSmithMetrics)) : List Anomaly :=
  (match catchNull cfFetch with
   | some cfMetrics =>
     checkCloudflareAnomalies cfMetrics (catchNull cfBaseFetch)
       DEFAULT_THRESHOLDS
   | none => []) ++
  (match catchNull lsFetch with
   | some lsMetrics =>
     checkLangSmithAnomalies lsMetrics (catchNull lsBaseFetch)
       DEFAULT_THRESHOLDS
   | none => [])

/-- `scheduler.ts`: `runAlerting`: fetch, detect, filter by cooldown,
notify, record.  Returns the final store and the recorded batch. -/
def runAlerting (cfFetch : Except Unit (Option CloudflareMetrics))
    (lsFetch : Except Unit (Option LangSmithMetrics))
    (cfBaseFetch : Except Unit (Option CloudflareMetrics))
    (lsBaseFetch : Except Unit (Option LangSmithMetrics))
    (sendOk : Bool) (cooldownMinutes : ℤ) (now : ℤ) (store : Store) :
    Store × Option (List Anomaly) :=
  let anomalies := detectedAnomalies cfFetch lsFetch cfBaseFetch lsBaseFetch
  if anomalies.length = 0 then (store, none)
  else
    let newAlerts := filterNewAlerts cooldownMinutes store now anomalies
    if newAlerts.length = 0 then (store, none)
    else if sendOk then (recordAlerts store now newAlerts, some newAlerts)
    else (store, none)

/-! ### Substring occurrence, for the message-format claims -/

/-- `needle` is a prefix of `hay` (on character lists). -/
def isPrefixList : List Char → List Char → Bool
  | [], _ => true
  | _ :: _, [] => false
  | a :: as, b :: bs => a == b && isPrefixList as bs

/-- `needle` occurs somewhere in `hay` (on character lists). -/
def occursList (needle : List Char) : List Char → Bool
  | [] => isPrefixList needle []
  | c :: t => isPrefixList needle (c :: t) || occursList needle t

/-- The string `needle` occurs as a contiguous substring of `hay`. -/
def strOccurs (needle hay : String) : Bool :=
  occursList needle.data hay.data

/-! ### Derived observation functions used by the theorem statements -/

/-- The per-anomaly keep decision of `filterNewAlerts`, read off the
cooldown test in `state.ts` lines 22–37: it depends only on the store as
of call start, the clock, and the anomaly's own type. -/
def keepB (cooldownMinutes : ℤ) (store : Store) (now : ℤ) (a : Anomaly) :
    Bool :=
  match store a.type with
  | some st =>
    if now - st.lastAlertTime < cooldownMinutes * 60 * 1000 then false
    else true
  | none => true

/-- Number of anomalies of type `t` in a batch. -/
def typeCount (t : AnomalyType) (batch : List Anomaly) : ℕ :=
  batch.countP fun a => decide (a.type = t)

/-- `alertCount` of an optional stored state, `0` when absent. -/
def storedCount : Option AlertState → ℕ
  | none => 0
  | some s => s.alertCount

/-- Position of each anomaly type in its detector's fixed emission order:
error-rate check first, latency check(s) second, spike check last. -/
def emitRank : AnomalyType → ℕ
  | AnomalyType.high_error_rate => 0
  | AnomalyType.high_latency => 1
  | AnomalyType.traffic_spike => 2
  | AnomalyType.llm_error_rate => 0
  | AnomalyType.llm_latency => 1
  | AnomalyType.llm_high_tokens => 2

/-- The store with no recorded alert state for any type. -/
def emptyStore : Store := fun _ => none

/-! ### Concrete inputs used by witnesses and counterexamples -/

/-- Cloudflare snapshot with 500 requests and nothing else elevated. -/
def cfSpikeCurrent : CloudflareMetrics :=
  { requestCount := 500, errorRate := 0, p95Latency := 0, p99Latency := 0
    errors5xx := 0, errors4xx := 0, timestamp := 42 }

/-- Cloudflare baseline with 200 requests. -/
def cfSpikeBaseline : CloudflareMetrics :=
  { requestCount := 200, errorRate := 0, p95Latency := 0, p99Latency := 0
    errors5xx := 0, errors4xx := 0, timestamp := 7 }

/-- Cloudflare snapshot breaching both the P95 and the P99 limit. -/
def cfDoubleLatency : CloudflareMetrics :=
  { requestCount := 100, errorRate := 0, p95Latency := 2500
    p99Latency := 3500, errors5xx := 0, errors4xx := 0, timestamp := 42 }

/-- The detector output for `cfDoubleLatency` with no baseline: two
`high_latency` anomalies in one batch. -/
def doubleLatencyBatch : List Anomaly :=
  checkCloudflareAnomalies cfDoubleLatency none DEFAULT_THRESHOLDS

/-- LangSmith snapshot with elevated error rate, latency and tokens. -/
def lsHotCurrent : LangSmithMetrics :=
  { totalRuns := 100, errorCount := 35, errorRate := 35, avgLatency := 0
    p95Latency := 25000, totalTokens := 0, avgTokensPerRun := 1000
    timestamp := 42 }

/-- LangSmith baseline with 300 tokens per run. -/
def lsQuietBaseline : LangSmithMetrics :=
  { totalRuns := 10, errorCount := 0, errorRate := 0, avgLatency := 0
    p95Latency := 0, totalTokens := 0, avgTokensPerRun := 300
    timestamp := 7 }

/-- Anomaly used to instantiate cooldown statements. -/
def witnessAnomaly : Anomaly :=
  { type := AnomalyType.high_error_rate, severity := Severity.high
    message := "w", value := 7, threshold := 5, timestamp := 0 }

/-- Store with one recorded `high_error_rate` alert at time 0. -/
def witnessStore : Store :=
  Store.put emptyStore AnomalyType.high_error_rate
    { lastAlertTime := 0, alertCount := 1 }

/-- The traffic-spike anomaly produced by `cfSpikeCurrent` over
`cfSpikeBaseline` with default thresholds, written out concretely. -/
def cfSpikeAnomaly : Anomaly :=
  { type := AnomalyType.traffic_spike, severity := Severity.default
    message := "Traffic is 2.5x baseline (500 vs 200 requests)"
    value := 5/2, threshold := 2, timestamp := 42 }

/-! ## Helper lemmas -/

lemma filterNewAlerts_eq_filter (m : ℤ) (store : Store) (now : ℤ)
    (as : List Anomaly) :
    filterNewAlerts m store now as = as.filter (keepB m store now) := by
  induction as with
  | nil => rfl
  | cons a rest ih =>
    rcases hh : store a.type with _ | st
    · simp [filterNewAlerts, List.filter_cons, keepB, hh, ih]
    · simp only [filterNewAlerts, List.filter_cons, keepB, hh]
      split <;> simp [ih]

lemma recordAlerts_lookup (now : ℤ) (batch : List Anomaly) :
    ∀ (store : Store) (t : AnomalyType),
      recordAlerts store now batch t =
        if typeCount t batch = 0 then store t
        else some { lastAlertTime := now,
                    alertCount := storedCount (store t) + typeCount t batch }
    := by
  induction batch with
  | nil => intro store t; simp [recordAlerts, typeCount]
  | cons a rest ih =>
    intro store t
    rw [recordAlerts]
    rw [ih]
    by_cases hat : a.type = t
    · have hput : Store.put store a.type
          (match store a.type with
           | some s => { lastAlertTime := now, alertCount := s.alertCount + 1 }
           | none => { lastAlertTime := now, alertCount := 1 }) t =
          some { lastAlertTime := now,
                 alertCount := storedCount (store t) + 1 } := by
        rw [← hat]
        simp only [Store.put, if_pos rfl]
        rcases hst : store a.type with _ | s <;>
          simp [hst, storedCount]
      have hcount : typeCount t (a :: rest) = typeCount t rest + 1 := by
        simp [typeCount, List.countP_cons, hat]
      rw [hput, hcount]
      rw [if_neg (Nat.succ_ne_zero _)]
      rcases Nat.eq_zero_or_pos (typeCount t rest) with hz | hp
      · rw [hz, if_pos rfl]
      · rw [if_neg (Nat.pos_iff_ne_zero.mp hp)]
        simp [storedCount]
        omega
    · have hput : ∀ st : AlertState, Store.put store a.type st t = store t := by
        intro st
        simp only [Store.put]
        rw [if_neg (fun h => hat h.symm)]
      rw [hput]
      have hcount : typeCount t (a :: rest) = typeCount t rest := by
        simp [typeCount, List.countP_cons, hat]
      rw [hcount]

lemma isPrefixList_self_append (n post : List Char) :
    isPrefixList n (n ++ post) = true := by
  induction n with
  | nil => rfl
  | cons c cs ih => simp [isPrefixList, ih]

lemma occursList_of_isPrefixList {n hay : List Char}
    (h : isPrefixList n hay = true) : occursList n hay = true := by
  cases hay with
  | nil => exact h
  | cons c t => simp [occursList, h]

lemma occursList_self_append (n pre post : List Char) :
    occursList n (pre ++ (n ++ post)) = true := by
  induction pre with
  | nil => exact occursList_of_isPrefixList (isPrefixList_self_append n post)
  | cons c t ih => simp [occursList, ih]

lemma strOccurs_append (a s b : String) :
    strOccurs s (a ++ s ++ b) = true := by
  unfold strOccurs
  rw [String.data_append, String.data_append, List.append_assoc]
  exact occursList_self_append s.data a.data b.data

lemma cf_mem_cases (c : CloudflareMetrics) (b : Option CloudflareMetrics)
    (th : Thresholds) (a : Anomaly)
    (ha : a ∈ checkCloudflareAnomalies c b th) :
    (th.errorRatePercent < c.errorRate ∧ a = cfErrorAnomaly c th) ∨
    (th.p95LatencyMs < c.p95Latency ∧ a = cfP95Anomaly c th) ∨
    (th.p99LatencyMs < c.p99Latency ∧ a = cfP99Anomaly c th) ∨
    ∃ bl, b = some bl ∧ 0 < bl.requestCount ∧
      th.trafficSpikeMultiplier < c.requestCount / bl.requestCount ∧
      a = cfTrafficAnomaly c bl th := by
  rcases b with _ | bl <;>
    simp only [checkCloudflareAnomalies, List.mem_append] at ha <;>
    rcases ha with ((h | h) | h) | h
  · split at h
    · rename_i hc
      exact Or.inl ⟨hc, by simpa using h⟩
    · simp at h
  · split at h
    · rename_i hc
      exact Or.inr (Or.inl ⟨hc, by simpa using h⟩)
    · simp at h
  · split at h
    · rename_i hc
      exact Or.inr (Or.inr (Or.inl ⟨hc, by simpa using h⟩))
    · simp at h
  · simp at h
  · split at h
    · rename_i hc
      exact Or.inl ⟨hc, by simpa using h⟩
    · simp at h
  · split at h
    · rename_i hc
      exact Or.inr (Or.inl ⟨hc, by simpa using h⟩)
    · simp at h
  · split at h
    · rename_i hc
      exact Or.inr (Or.inr (Or.inl ⟨hc, by simpa using h⟩))
    · simp at h
  · split at h
    · split at h
      · rename_i h1 h2
        exact Or.inr (Or.inr (Or.inr ⟨bl, rfl, h1, h2, by simpa using h⟩))
      · simp at h
    · simp at h

lemma ls_mem_cases (l : LangSmithMetrics) (lb : Option LangSmithMetrics)
    (th : Thresholds) (a : Anomaly)
    (ha : a ∈ checkLangSmithAnomalies l lb th) :
    (th.llmErrorRatePercent < l.errorRate ∧ a = lsErrorAnomaly l th) ∨
    (th.llmP95LatencyMs < l.p95Latency ∧ a = lsLatencyAnomaly l th) ∨
    ∃ bl, lb = some bl ∧ 0 < bl.avgTokensPerRun ∧
      th.llmTokenSpikeMultiplier < l.avgTokensPerRun / bl.avgTokensPerRun ∧
      a = lsTokensAnomaly l bl th := by
  rcases lb with _ | bl <;>
    simp only [checkLangSmithAnomalies, List.mem_append] at ha <;>
    rcases ha with (h | h) | h
  · split at h
    · rename_i hc
      exact Or.inl ⟨hc, by simpa using h⟩
    · simp at h
  · split at h
    · rename_i hc
      exact Or.inr (Or.inl ⟨hc, by simpa using h⟩)
    · simp at h
  · simp at h
  · split at h
    · rename_i hc
      exact Or.inl ⟨hc, by simpa using h⟩
    · simp at h
  · split at h
    · rename_i hc
      exact Or.inr (Or.inl ⟨hc, by simpa using h⟩)
    · simp at h
  · split at h
    · split at h
      · rename_i h1 h2
        exact Or.inr (Or.inr ⟨bl, rfl, h1, h2, by simpa using h⟩)
      · simp at h
    · simp at h

/-! ## Claims -/

/-- C1, as stated, is false: `recordAlerts` iterates over the raw batch
with no per-type dedup, so the real two-`high_latency` batch produced by a
snapshot breaching both P95 and P99 ends, from empty state, at
`alertCount = 2`, not `1`. -/
theorem recordAlerts_batch_dedup_counterexample :
    typeCount AnomalyType.high_latency doubleLatencyBatch = 2 ∧
    recordAlerts emptyStore 1000 doubleLatencyBatch
      AnomalyType.high_latency =
      some { lastAlertTime := 1000, alertCount := 2 } ∧
    (2 : ℕ) ≠ 1 := by
  refine ⟨by decide, by decide, by decide⟩

/-- C1 amended: `recordAlerts` updates the state for a type once per
anomaly of that type in the batch, not once per batch: with `k ≥ 1`
occurrences the stored state becomes `lastAlertTime = now` and
`alertCount` = prior count (0 if absent) + `k`; types with no occurrence
are untouched. -/
theorem recordAlerts_per_type_counts (now : ℤ) (batch : List Anomaly)
    (store : Store) (t : AnomalyType) :
    recordAlerts store now batch t =
      if typeCount t batch = 0 then store t
      else some { lastAlertTime := now,
                  alertCount := storedCount (store t) + typeCount t batch } :=
  recordAlerts_lookup now batch store t

/-- C2: with stored state `lastAlertTime = T` and cooldown
`C = cooldownMinutes * 60 * 1000` ms, `filterNewAlerts` drops an anomaly
of that type for every `now ∈ [T, T + C)` and keeps it for every
`now ≥ T + C`; with no stored state for the type it always keeps it. -/
theorem filterNewAlerts_cooldown_window (m T : ℤ) (c : ℕ) (store : Store)
    (a : Anomaly) (now : ℤ) :
    (store a.type = some { lastAlertTime := T, alertCount := c } →
      ((T ≤ now ∧ now < T + m * 60 * 1000) →
        filterNewAlerts m store now [a] = []) ∧
      (T + m * 60 * 1000 ≤ now →
        filterNewAlerts m store now [a] = [a])) ∧
    (store a.type = none → filterNewAlerts m store now [a] = [a]) := by
  constructor
  · intro h
    constructor
    · rintro ⟨h1, h2⟩
      simp only [filterNewAlerts, h]
      rw [if_pos (by linarith)]
    · intro h2
      simp only [filterNewAlerts, h]
      rw [if_neg (by rw [not_lt]; linarith)]
  · intro h
    simp [filterNewAlerts, h]

/-- Witness for C2 at `T = 0`, 60-minute cooldown: dropped at
`now = 1 800 000`, kept at `now = 3 600 000`, and kept from empty state. -/
theorem filterNewAlerts_cooldown_window_witness :
    filterNewAlerts 60 witnessStore 1800000 [witnessAnomaly] = [] ∧
    filterNewAlerts 60 witnessStore 3600000 [witnessAnomaly] =
      [witnessAnomaly] ∧
    filterNewAlerts 60 emptyStore 1800000 [witnessAnomaly] =
      [witnessAnomaly] :=
  ⟨((filterNewAlerts_cooldown_window 60 0 1 witnessStore witnessAnomaly
      1800000).1 rfl).1 ⟨by decide, by decide⟩,
   ((filterNewAlerts_cooldown_window 60 0 1 witnessStore witnessAnomaly
      3600000).1 rfl).2 (by decide),
   (filterNewAlerts_cooldown_window 60 0 1 emptyStore witnessAnomaly
      1800000).2 rfl⟩

/-- C3: each detector emits no error-rate anomaly when the current error
rate is at or below its policy threshold, and exactly one — severity
`high`, observed value the error rate, threshold the policy value — when
it is above. -/
theorem error_rate_check_exact (c : CloudflareMetrics)
    (b : Option CloudflareMetrics) (l : LangSmithMetrics)
    (lb : Option LangSmithMetrics) (th : Thresholds) :
    ((c.errorRate ≤ th.errorRatePercent →
      (checkCloudflareAnomalies c b th).filter
        (fun a => decide (a.type = AnomalyType.high_error_rate)) = []) ∧
     (th.errorRatePercent < c.errorRate →
      ((checkCloudflareAnomalies c b th).filter
        (fun a => decide (a.type = AnomalyType.high_error_rate))).length = 1 ∧
      ∀ a ∈ (checkCloudflareAnomalies c b th).filter
          (fun a => decide (a.type = AnomalyType.high_error_rate)),
        a.severity = Severity.high ∧ a.value = c.errorRate ∧
        a.threshold = th.errorRatePercent)) ∧
    ((l.errorRate ≤ th.llmErrorRatePercent →
      (checkLangSmithAnomalies l lb th).filter
        (fun a => decide (a.type = AnomalyType.llm_error_rate)) = []) ∧
     (th.llmErrorRatePercent < l.errorRate →
      ((checkLangSmithAnomalies l lb th).filter
        (fun a => decide (a.type = AnomalyType.llm_error_rate))).length = 1 ∧
      ∀ a ∈ (checkLangSmithAnomalies l lb th).filter
          (fun a => decide (a.type = AnomalyType.llm_error_rate)),
        a.severity = Severity.high ∧ a.value = l.errorRate ∧
        a.threshold = th.llmErrorRatePercent)) := by
  refine ⟨⟨?_, ?_⟩, ⟨?_, ?_⟩⟩
  · intro hle
    simp only [checkCloudflareAnomalies, List.filter_append,
      if_neg (not_lt.mpr hle)]
    rcases b with _ | bl
    · split_ifs <;> simp [List.filter]
    · split_ifs <;> simp [List.filter] <;>
        (first
          | (intro a h1 h2 ha; subst ha; simp)
          | (constructor <;> (intro a h1 h2 ha; subst ha; simp)))
  · intro hgt
    simp only [checkCloudflareAnomalies, List.filter_append, if_pos hgt]
    rcases b with _ | bl
    · split_ifs <;> simp [List.filter]
    · split_ifs <;> simp [List.filter] <;>
        (first
          | (intro a h1 h2 ha; subst ha; simp)
          | (constructor <;> (intro a h1 h2 ha; subst ha; simp)))
  · intro hle
    simp only [checkLangSmithAnomalies, List.filter_append,
      if_neg (not_lt.mpr hle)]
    rcases lb with _ | bl
    · split_ifs <;> simp [List.filter]
    · split_ifs <;> simp [List.filter] <;>
        (first
          | (intro a h1 h2 ha; subst ha; simp)
          | (constructor <;> (intro a h1 h2 ha; subst ha; simp)))
  · intro hgt
    simp only [checkLangSmithAnomalies, List.filter_append, if_pos hgt]
    rcases lb with _ | bl
    · split_ifs <;> simp [List.filter]
    · split_ifs <;> simp [List.filter] <;>
        (first
          | (intro a h1 h2 ha; subst ha; simp)
          | (constructor <;> (intro a h1 h2 ha; subst ha; simp)))

/-- Witness for C3: with default thresholds, error rate 7.5% fires exactly
one Cloudflare anomaly and LLM error rate 35% exactly one LangSmith
anomaly; error rate 0 fires none. -/
theorem error_rate_check_exact_witness :
    (checkCloudflareAnomalies cfSpikeCurrent none DEFAULT_THRESHOLDS).filter
      (fun a => decide (a.type = AnomalyType.high_error_rate)) = [] ∧
    ((checkCloudflareAnomalies
        { cfSpikeCurrent with errorRate := 15/2 } none
        DEFAULT_THRESHOLDS).filter
      (fun a => decide (a.type = AnomalyType.high_error_rate))).length = 1 ∧
    ((checkLangSmithAnomalies lsHotCurrent none DEFAULT_THRESHOLDS).filter
      (fun a => decide (a.type = AnomalyType.llm_error_rate))).length = 1 :=
  ⟨(error_rate_check_exact cfSpikeCurrent none lsHotCurrent none
      DEFAULT_THRESHOLDS).1.1 (by norm_num [cfSpikeCurrent, DEFAULT_THRESHOLDS]),
   ((error_rate_check_exact { cfSpikeCurrent with errorRate := 15/2 } none
      lsHotCurrent none DEFAULT_THRESHOLDS).1.2
      (by norm_num [cfSpikeCurrent, DEFAULT_THRESHOLDS])).1,
   ((error_rate_check_exact cfSpikeCurrent none lsHotCurrent none
      DEFAULT_THRESHOLDS).2.2
      (by norm_num [lsHotCurrent, DEFAULT_THRESHOLDS])).1⟩

/-- C4: the spike checks fire iff the baseline is present, its denominator
(`requestCount`, resp. `avgTokensPerRun`) is strictly positive, and the
current/baseline ratio exceeds the configured multiplier; the fired
anomaly's observed value is the ratio itself; a zero denominator never
fires. -/
theorem spike_check_fires_iff (c : CloudflareMetrics)
    (l : LangSmithMetrics) (th : Thresholds) :
    ((checkCloudflareAnomalies c none th).filter
        (fun a => decide (a.type = AnomalyType.traffic_spike)) = [] ∧
     ∀ bl : CloudflareMetrics,
       ((checkCloudflareAnomalies c (some bl) th).filter
          (fun a => decide (a.type = AnomalyType.traffic_spike)) ≠ [] ↔
        0 < bl.requestCount ∧
          th.trafficSpikeMultiplier < c.requestCount / bl.requestCount) ∧
       (bl.requestCount = 0 →
        (checkCloudflareAnomalies c (some bl) th).filter
          (fun a => decide (a.type = AnomalyType.traffic_spike)) = []) ∧
       ∀ a ∈ (checkCloudflareAnomalies c (some bl) th).filter
           (fun a => decide (a.type = AnomalyType.traffic_spike)),
         a.value = c.requestCount / bl.requestCount) ∧
    ((checkLangSmithAnomalies l none th).filter
        (fun a => decide (a.type = AnomalyType.llm_high_tokens)) = [] ∧
     ∀ bl : LangSmithMetrics,
       ((checkLangSmithAnomalies l (some bl) th).filter
          (fun a => decide (a.type = AnomalyType.llm_high_tokens)) ≠ [] ↔
        0 < bl.avgTokensPerRun ∧
          th.llmTokenSpikeMultiplier < l.avgTokensPerRun / bl.avgTokensPerRun) ∧
       (bl.avgTokensPerRun = 0 →
        (checkLangSmithAnomalies l (some bl) th).filter
          (fun a => decide (a.type = AnomalyType.llm_high_tokens)) = []) ∧
       ∀ a ∈ (checkLangSmithAnomalies l (some bl) th).filter
           (fun a => decide (a.type = AnomalyType.llm_high_tokens)),
         a.value = l.avgTokensPerRun / bl.avgTokensPerRun) := by
  constructor
  · constructor
    · simp only [checkCloudflareAnomalies, List.filter_append]
      split_ifs <;> simp [List.filter]
    · intro bl
      refine ⟨?_, ?_, ?_⟩
      · simp only [checkCloudflareAnomalies, List.filter_append]
        split_ifs with h1 h2 h3 h4 h5 <;>
          simp_all [List.filter]
      · intro hz
        simp only [checkCloudflareAnomalies, List.filter_append]
        split_ifs <;> simp_all [List.filter]
      · intro a ha
        simp only [checkCloudflareAnomalies, List.filter_append] at ha
        split_ifs at ha <;> simp_all [List.filter]
  · constructor
    · simp only [checkLangSmithAnomalies, List.filter_append]
      split_ifs <;> simp [List.filter]
    · intro bl
      refine ⟨?_, ?_, ?_⟩
      · simp only [checkLangSmithAnomalies, List.filter_append]
        split_ifs with h1 h2 h3 h4 h5 <;>
          simp_all [List.filter]
      · intro hz
        simp only [checkLangSmithAnomalies, List.filter_append]
        split_ifs <;> simp_all [List.filter]
      · intro a ha
        simp only [checkLangSmithAnomalies, List.filter_append] at ha
        split_ifs at ha <;> simp_all [List.filter]

/-- Witness for C4: a 500-request snapshot over a 200-request baseline
fires the traffic spike with ratio 2.5, a zero-request baseline never
fires, and 1000 tokens/run over a 300 tokens/run baseline fires the token
spike with ratio 10/3. -/
theorem spike_check_fires_iff_witness :
    (checkCloudflareAnomalies cfSpikeCurrent (some cfSpikeBaseline)
        DEFAULT_THRESHOLDS).filter
      (fun a => decide (a.type = AnomalyType.traffic_spike)) ≠ [] ∧
    (checkCloudflareAnomalies cfSpikeCurrent
        (some { cfSpikeBaseline with requestCount := 0 })
        DEFAULT_THRESHOLDS).filter
      (fun a => decide (a.type = AnomalyType.traffic_spike)) = [] ∧
    (checkLangSmithAnomalies lsHotCurrent (some lsQuietBaseline)
        DEFAULT_THRESHOLDS).filter
      (fun a => decide (a.type = AnomalyType.llm_high_tokens)) ≠ [] :=
  ⟨(((spike_check_fires_iff cfSpikeCurrent lsHotCurrent
        DEFAULT_THRESHOLDS).1.2 cfSpikeBaseline).1).mpr
      (by norm_num [cfSpikeCurrent, cfSpikeBaseline, DEFAULT_THRESHOLDS]),
   (((spike_check_fires_iff cfSpikeCurrent lsHotCurrent
        DEFAULT_THRESHOLDS).1.2
        { cfSpikeBaseline with requestCount := 0 }).2).1 rfl,
   (((spike_check_fires_iff cfSpikeCurrent lsHotCurrent
        DEFAULT_THRESHOLDS).2.2 lsQuietBaseline).1).mpr
      (by norm_num [lsHotCurrent, lsQuietBaseline, DEFAULT_THRESHOLDS])⟩

/-- C5, as stated, is false: the traffic-spike message renders the ratio
with `toFixed(1)`, not 2 decimals — at ratio 2.5 the emitted message is
"Traffic is 2.5x baseline (500 vs 200 requests)", which does not contain
the 2-decimal rendering "2.50". -/
theorem message_ratio_precision_counterexample :
    (checkCloudflareAnomalies cfSpikeCurrent (some cfSpikeBaseline)
        DEFAULT_THRESHOLDS).filter
      (fun a => decide (a.type = AnomalyType.traffic_spike)) =
      [cfSpikeAnomaly] ∧
    toFixed cfSpikeAnomaly.value 2 = "2.50" ∧
    strOccurs (toFixed cfSpikeAnomaly.value 2) cfSpikeAnomaly.message =
      false := by
  refine ⟨by with_unfolding_all decide, by with_unfolding_all decide,
    by with_unfolding_all decide⟩

/-- C5 amended: every anomaly message embeds the observed value with the
precision the code actually uses — 2 decimals for percentage values,
0 decimals for Cloudflare millisecond latencies, 1 decimal for
traffic/token spike ratios, and the LLM latency as seconds
(`value / 1000`) with 2 decimals. -/
theorem message_value_precision (c : CloudflareMetrics)
    (b : Option CloudflareMetrics) (l : LangSmithMetrics)
    (lb : Option LangSmithMetrics) (th : Thresholds) :
    (∀ a ∈ checkCloudflareAnomalies c b th,
      (a.type = AnomalyType.high_error_rate →
        strOccurs (toFixed a.value 2) a.message = true) ∧
      (a.type = AnomalyType.high_latency →
        strOccurs (toFixed a.value 0) a.message = true) ∧
      (a.type = AnomalyType.traffic_spike →
        strOccurs (toFixed a.value 1) a.message = true)) ∧
    (∀ a ∈ checkLangSmithAnomalies l lb th,
      (a.type = AnomalyType.llm_error_rate →
        strOccurs (toFixed a.value 2) a.message = true) ∧
      (a.type = AnomalyType.llm_latency →
        strOccurs (toFixed (a.value / 1000) 2) a.message = true) ∧
      (a.type = AnomalyType.llm_high_tokens →
        strOccurs (toFixed a.value 1) a.message = true)) := by
  constructor
  · intro a ha
    rcases cf_mem_cases c b th a ha with
      ⟨hc, rfl⟩ | ⟨hc, rfl⟩ | ⟨hc, rfl⟩ | ⟨bl, hb, h1, h2, rfl⟩ <;>
      refine ⟨fun h => ?_, fun h => ?_, fun h => ?_⟩ <;>
      first
        | (simp only [cfErrorAnomaly, cfP95Anomaly, cfP99Anomaly,
             cfTrafficAnomaly];
           unfold strOccurs;
           simp only [String.data_append, List.append_assoc];
           exact occursList_self_append _ _ _)
        | (exact absurd h (by simp))
  · intro a ha
    rcases ls_mem_cases l lb th a ha with
      ⟨hc, rfl⟩ | ⟨hc, rfl⟩ | ⟨bl, hb, h1, h2, rfl⟩ <;>
      refine ⟨fun h => ?_, fun h => ?_, fun h => ?_⟩ <;>
      first
        | (simp only [lsErrorAnomaly, lsLatencyAnomaly, lsTokensAnomaly];
           unfold strOccurs;
           simp only [String.data_append, List.append_assoc];
           exact occursList_self_append _ _ _)
        | (exact absurd h (by simp))

/-- Witness for the amended C5: the concrete spike message contains the
ratio rendered with 1 decimal. -/
theorem message_value_precision_witness :
    strOccurs (toFixed cfSpikeAnomaly.value 1) cfSpikeAnomaly.message =
      true :=
  ((message_value_precision cfSpikeCurrent (some cfSpikeBaseline)
      lsHotCurrent none DEFAULT_THRESHOLDS).1 cfSpikeAnomaly
    (by with_unfolding_all decide)).2.2 rfl

/-- C6: the emitted list follows the fixed order error-rate check, then
latency check(s) (P95 before P99 for Cloudflare), then spike check; a P95
breach and a P99 breach in one snapshot yield two separate `high_latency`
anomalies carrying the P95 and the P99 value, in that order. -/
theorem emission_order (c : CloudflareMetrics)
    (b : Option CloudflareMetrics) (l : LangSmithMetrics)
    (lb : Option LangSmithMetrics) (th : Thresholds) :
    List.Sorted (· ≤ ·)
      ((checkCloudflareAnomalies c b th).map (fun a => emitRank a.type)) ∧
    ((th.p95LatencyMs < c.p95Latency ∧ th.p99LatencyMs < c.p99Latency) →
      ((checkCloudflareAnomalies c b th).filter
        (fun a => decide (a.type = AnomalyType.high_latency))).map
          Anomaly.value = [c.p95Latency, c.p99Latency]) ∧
    List.Sorted (· ≤ ·)
      ((checkLangSmithAnomalies l lb th).map (fun a => emitRank a.type)) := by
  refine ⟨?_, ?_, ?_⟩
  · rcases b with _ | bl <;> simp only [checkCloudflareAnomalies] <;>
      split_ifs <;> simp [emitRank] <;> decide
  · rintro ⟨h95, h99⟩
    rcases b with _ | bl <;>
      simp only [checkCloudflareAnomalies, List.filter_append] <;>
      split_ifs <;> simp_all [List.filter] <;>
      (intro a h1 h2 ha; subst ha; simp)
  · rcases lb with _ | bl <;> simp only [checkLangSmithAnomalies] <;>
      split_ifs <;> simp [emitRank] <;> decide

/-- Witness for C6: `cfDoubleLatency` breaches both latency limits and
yields exactly the two latency values, P95 first. -/
theorem emission_order_witness :
    ((checkCloudflareAnomalies cfDoubleLatency none
        DEFAULT_THRESHOLDS).filter
      (fun a => decide (a.type = AnomalyType.high_latency))).map
        Anomaly.value = [2500, 3500] :=
  (emission_order cfDoubleLatency none lsHotCurrent none
    DEFAULT_THRESHOLDS).2.1 ⟨by decide, by decide⟩

/-- C7: `filterNewAlerts` decides each anomaly independently from the
state as of call start (it performs no writes), so it acts as a pointwise
filter, running it twice yields the same result, and for a type with no
stored state every anomaly of that type in the batch survives — an
earlier one never suppresses a later one. -/
theorem filterNewAlerts_idempotent (m : ℤ) (store : Store) (now : ℤ)
    (as : List Anomaly) :
    filterNewAlerts m store now as = as.filter (keepB m store now) ∧
    filterNewAlerts m store now (filterNewAlerts m store now as) =
      filterNewAlerts m store now as ∧
    ∀ t, store t = none →
      (filterNewAlerts m store now as).filter
          (fun a => decide (a.type = t)) =
        as.filter (fun a => decide (a.type = t)) := by
  refine ⟨filterNewAlerts_eq_filter m store now as, ?_, ?_⟩
  · simp [filterNewAlerts_eq_filter, List.filter_filter]
  · intro t ht
    rw [filterNewAlerts_eq_filter, List.filter_filter]
    refine List.filter_congr ?_
    intro a _
    by_cases hat : a.type = t
    · simp [keepB, hat, ht]
    · simp [hat]

/-- Witness for C7: from empty state the two-latency batch passes the
filter untouched. -/
theorem filterNewAlerts_idempotent_witness :
    (filterNewAlerts 60 emptyStore 0 doubleLatencyBatch).filter
        (fun a => decide (a.type = AnomalyType.high_latency)) =
      doubleLatencyBatch.filter
        (fun a => decide (a.type = AnomalyType.high_latency)) :=
  (filterNewAlerts_idempotent 60 emptyStore 0 doubleLatencyBatch).2.2
    AnomalyType.high_latency rfl

/-- C8: if the notification send throws (`sendOk = false`), the enclosing
`try/catch` skips `recordAlerts`, so the pass leaves the alert state store
unchanged and records no batch. -/
theorem runAlerting_send_failure_preserves_state
    (cf : Except Unit (Option CloudflareMetrics))
    (ls : Except Unit (Option LangSmithMetrics))
    (cb : Except Unit (Option CloudflareMetrics))
    (lb : Except Unit (Option LangSmithMetrics))
    (m now : ℤ) (store : Store) :
    (runAlerting cf ls cb lb false m now store).1 = store ∧
    (runAlerting cf ls cb lb false m now store).2 = none := by
  refine ⟨?_, ?_⟩ <;> (dsimp only [runAlerting]; split_ifs <;> simp_all)

/-- C9: a rejected fetch for one source contributes an empty anomaly list
to the pass while the other source's detector still runs on its own
snapshot. -/
theorem detect_isolated_source_failure
    (cfF : Except Unit (Option CloudflareMetrics))
    (lsF : Except Unit (Option LangSmithMetrics))
    (cb : Except Unit (Option CloudflareMetrics))
    (lb : Except Unit (Option LangSmithMetrics)) :
    detectedAnomalies (Except.error ()) lsF cb lb =
      (match catchNull lsF with
       | some lsm =>
         checkLangSmithAnomalies lsm (catchNull lb) DEFAULT_THRESHOLDS
       | none => []) ∧
    detectedAnomalies cfF (Except.error ()) cb lb =
      (match catchNull cfF with
       | some cfm =>
         checkCloudflareAnomalies cfm (catchNull cb) DEFAULT_THRESHOLDS
       | none => []) := by
  constructor <;> simp [detectedAnomalies, catchNull]

/-- C10: every emitted anomaly has its observed value strictly above its
threshold (equality never fires) and carries the current snapshot's
timestamp. -/
theorem anomaly_strictness_invariant (c : CloudflareMetrics)
    (b : Option CloudflareMetrics) (l : LangSmithMetrics)
    (lb : Option LangSmithMetrics) (th : Thresholds) :
    (∀ a ∈ checkCloudflareAnomalies c b th,
      a.threshold < a.value ∧ a.timestamp = c.timestamp) ∧
    (∀ a ∈ checkLangSmithAnomalies l lb th,
      a.threshold < a.value ∧ a.timestamp = l.timestamp) := by
  constructor
  · intro a ha
    rcases cf_mem_cases c b th a ha with
      ⟨hc, rfl⟩ | ⟨hc, rfl⟩ | ⟨hc, rfl⟩ | ⟨bl, hb, h1, h2, rfl⟩
    · exact ⟨by simpa using hc, by simp⟩
    · exact ⟨by simpa using hc, by simp⟩
    · exact ⟨by simpa using hc, by simp⟩
    · exact ⟨by simpa using h2, by simp⟩
  · intro a ha
    rcases ls_mem_cases l lb th a ha with
      ⟨hc, rfl⟩ | ⟨hc, rfl⟩ | ⟨bl, hb, h1, h2, rfl⟩
    · exact ⟨by simpa using hc, by simp⟩
    · exact ⟨by simpa using hc, by simp⟩
    · exact ⟨by simpa using h2, by simp⟩

/-- Witness for C10 at the concrete spike anomaly: 2 < 5/2 and the
timestamp is the current snapshot's. -/
theorem anomaly_strictness_invariant_witness :
    cfSpikeAnomaly.threshold < cfSpikeAnomaly.value ∧
    cfSpikeAnomaly.timestamp = cfSpikeCurrent.timestamp :=
  (anomaly_strictness_invariant cfSpikeCurrent (some cfSpikeBaseline)
    lsHotCurrent none DEFAULT_THRESHOLDS).1 cfSpikeAnomaly
    (by with_unfolding_all decide)

end Alerting
